import Mathlib

/-!
Verification development for the cambia-server lobby WebSocket subsystem
(`internal/handlers/lobby_ws.go`): the connection-accept handler
(`LobbyWSHandler`), the per-connection read and write pumps (`readPump`,
`writePump`) and the message dispatcher (`handleLobbyMessage`), together
with a model of the `internal/lobby` package's `LobbyState` operations.

The `internal/lobby` package itself (LobbyState methods `BroadcastJoin`,
`BroadcastLeave`, `BroadcastReadyState`, `BroadcastChat`, `AreAllReady`,
`StartCountdown`, `CancelCountdown`, `RemoveUser`) is not among the
available sources; those operations are modelled from the specification
and are marked as such in their doc comments.  Everything else is a
direct shallow embedding of the Go source.

Modelling conventions: user identifiers and lobby identifiers (UUIDs in
Go) are `Nat`; a connection's cancellation handle (`context.CancelFunc`)
is a `Nat` identifier, and "cancelling" it means emitting that identifier
into a list of cancelled handles; Go maps are association lists with
overwrite-on-insert; a JSON payload already parsed by `json.Unmarshal`
into `map[string]interface{}` is a `Packet` of key/`JValue` pairs, and a
parse failure is `Option.none` at the point of use.
-/

set_option autoImplicit false

/-- JSON-like values, the image of Go's `interface{}` after `json.Unmarshal`. -/
inductive JValue where
  | jnull : JValue
  | jbool : Bool → JValue
  | jnum : Int → JValue
  | jstr : String → JValue
  | jarr : List JValue → JValue
  | jobj : List (String × JValue) → JValue

/-- A parsed inbound message, Go's `map[string]interface{}`. -/
abbrev Packet := List (String × JValue)

/-- Lookup of a key in a packet (Go map indexing `packet[k]`). -/
def lookupJ : Packet → String → Option JValue
  | [], _ => none
  | (k, v) :: t, key => if k = key then some v else lookupJ t key

/-- Whether a JSON value is a string. -/
def isStr : JValue → Bool
  | JValue.jstr _ => true
  | _ => false

/-- Go's comma-ok string type assertion `s, _ := v.(string)`:
the string itself when the value is present and is a string, `""` otherwise. -/
def asString : Option JValue → String
  | some (JValue.jstr s) => s
  | _ => ""

/-- Events placed on participants' outbound queues.  The Go code builds
`map[string]interface{}` envelopes inside the missing `lobby` package; the
spec leaves the exact field names open, so events are modelled abstractly. -/
inductive LobbyEvent where
  | userJoined : Nat → LobbyEvent
  | userLeft : Nat → LobbyEvent
  | readyState : Nat → Bool → LobbyEvent
  | chat : Nat → String → LobbyEvent
deriving Repr, DecidableEq

/-- Go struct `lobby.LobbyConnection`: `UserID`, `Cancel` (modelled as a
handle identifier) and `OutChan` (modelled as the queue's current contents;
capacity 10 is enforced by `enqueueMsg`). -/
structure LobbyConnection where
  userID : Nat
  handle : Nat
  queue : List LobbyEvent
deriving Repr, DecidableEq

/-- Non-blocking bounded enqueue onto an outbound queue: the channel has
capacity 10 and a message to a full queue is dropped, never blocked on. -/
def enqueueMsg (q : List LobbyEvent) (e : LobbyEvent) : List LobbyEvent :=
  if q.length < 10 then q ++ [e] else q

/-- Association-list lookup (Go map read). -/
def lookupA {α : Type} : List (Nat × α) → Nat → Option α
  | [], _ => none
  | (k, v) :: t, key => if k = key then some v else lookupA t key

/-- Association-list insert-or-overwrite (Go map assignment `m[k] = v`). -/
def updA {α : Type} : List (Nat × α) → Nat → α → List (Nat × α)
  | [], key, val => [(key, val)]
  | (k, v) :: t, key, val =>
      if k = key then (key, val) :: t else (k, v) :: updA t key val

/-- Association-list deletion (Go `delete(m, k)`). -/
def eraseA {α : Type} : List (Nat × α) → Nat → List (Nat × α)
  | [], _ => []
  | (k, v) :: t, key => if k = key then eraseA t key else (k, v) :: eraseA t key

/-- Go struct `lobby.LobbyState` as the spec's Data Model lists it: lobby
identifier, user → connection map, user → ready-flag map, autoStart flag,
and the optional running countdown (its remaining seconds when running). -/
structure LobbyState where
  lobbyID : Nat
  connections : List (Nat × LobbyConnection)
  readyStates : List (Nat × Bool)
  autoStart : Bool
  countdown : Option Nat
deriving Repr, DecidableEq

/-- Modelled from the spec: the broadcast primitives "construct a typed
event envelope and attempt a non-blocking enqueue onto every current
participant's outbound queue; a full queue causes that one recipient's
message to be dropped".  `broadcastEventExcept` enqueues the event onto
every connected participant's queue except the excluded user (if any). -/
def broadcastEventExcept (conns : List (Nat × LobbyConnection)) (excl : Option Nat)
    (e : LobbyEvent) : List (Nat × LobbyConnection) :=
  conns.map (fun p =>
    if some p.1 = excl then p
    else (p.1, { p.2 with queue := enqueueMsg p.2.queue e }))

/-- Modelled from the spec: `BroadcastJoin` (missing `internal/lobby`
package) "broadcasts a user-joined event to all other current participants
(not to the joining user)". -/
def broadcastJoin (ls : LobbyState) (u : Nat) : LobbyState :=
  { ls with connections := broadcastEventExcept ls.connections (some u) (LobbyEvent.userJoined u) }

/-- Modelled from the spec: `BroadcastReadyState` (missing `internal/lobby`
package) broadcasts "ready state changed" to all participants including
the sender. -/
def broadcastReadyState (ls : LobbyState) (u : Nat) (v : Bool) : LobbyState :=
  { ls with connections := broadcastEventExcept ls.connections none (LobbyEvent.readyState u v) }

/-- Modelled from the spec: `BroadcastLeave` (missing `internal/lobby`
package) broadcasts "user left" to the remaining participants, i.e. every
current participant other than the leaver. -/
def broadcastLeave (ls : LobbyState) (u : Nat) : LobbyState :=
  { ls with connections := broadcastEventExcept ls.connections (some u) (LobbyEvent.userLeft u) }

/-- Modelled from the spec: `BroadcastChat` (missing `internal/lobby`
package) broadcasts a chat event attributed to the sender; per the spec's
chat scenario the sender's own queue does not receive an echo. -/
def broadcastChat (ls : LobbyState) (u : Nat) (msg : String) : LobbyState :=
  { ls with connections := broadcastEventExcept ls.connections (some u) (LobbyEvent.chat u msg) }

/-- Modelled from the spec: `AreAllReady` (missing `internal/lobby`
package) "returns true iff every user identifier currently present in the
connection mapping has a ready flag of true; an empty lobby's
are_all_ready() returns true". -/
def areAllReady (ls : LobbyState) : Bool :=
  ls.connections.all (fun p => decide (lookupA ls.readyStates p.1 = some true))

/-- Modelled from the spec: `StartCountdown` (missing `internal/lobby`
package) is a "no-op if one already running; otherwise creates a new
Countdown bound to this Lobby State with the given delay".  Expiry-time
session handoff is outside the modelled claims. -/
def startCountdown (ls : LobbyState) (secs : Nat) : LobbyState :=
  match ls.countdown with
  | some _ => ls
  | none => { ls with countdown := some secs }

/-- Modelled from the spec: `CancelCountdown` (missing `internal/lobby`
package) "transitions any running countdown to cancelled; safe to call
when none is running". -/
def cancelCountdown (ls : LobbyState) : LobbyState :=
  { ls with countdown := none }

/-- Modelled from the spec: `RemoveUser` (missing `internal/lobby`
package) "removes from both maps, cancels that user's connection handle
(idempotent), broadcasts user-left to remaining participants".  Returns
the updated state together with the list of handles it cancelled. -/
def removeUser (ls : LobbyState) (u : Nat) : LobbyState × List Nat :=
  let cancelled := match lookupA ls.connections u with
    | some c => [c.handle]
    | none => []
  let ls1 := { ls with
    connections := eraseA ls.connections u,
    readyStates := eraseA ls.readyStates u }
  (broadcastLeave ls1 u, cancelled)

/-- Result of one run of `handleLobbyMessage`: the updated lobby state,
the cancellation handles invoked during dispatch (`conn.Cancel()` calls),
and the warnings logged. -/
structure DispatchOutcome where
  ls : LobbyState
  cancelled : List Nat
  log : List String
deriving Repr, DecidableEq

/-- Shallow embedding of `handleLobbyMessage` (lobby_ws.go lines 143-173):
switches on the packet's string `type` field.  `ready` sets the sender's
ready flag, broadcasts the ready state and, when `AutoStart` is on and
everyone connected is ready, starts a 10-second countdown.  `unready`
clears the flag, broadcasts, and cancels any countdown.  `leave_lobby`
performs the external DB removal (its result is the `dbRemove` argument;
an error is logged and processing continues), broadcasts the leave and
cancels this connection.  `chat` broadcasts the packet's `msg` string.
Anything else is logged and ignored. -/
def handleLobbyMessage (packet : Packet) (ls : LobbyState) (senderID senderHandle : Nat)
    (dbRemove : Except String Unit) : DispatchOutcome :=
  let action := asString (lookupJ packet "type")
  if action = "ready" then
    let ls1 := { ls with readyStates := updA ls.readyStates senderID true }
    let ls2 := broadcastReadyState ls1 senderID true
    let ls3 := if ls2.autoStart && areAllReady ls2 then startCountdown ls2 10 else ls2
    ⟨ls3, [], []⟩
  else if action = "unready" then
    let ls1 := { ls with readyStates := updA ls.readyStates senderID false }
    let ls2 := broadcastReadyState ls1 senderID false
    ⟨cancelCountdown ls2, [], []⟩
  else if action = "leave_lobby" then
    let logged := match dbRemove with
      | Except.error e => ["failed to remove user " ++ toString senderID ++ " from DB: " ++ e]
      | Except.ok _ => []
    ⟨broadcastLeave ls senderID, [senderHandle], logged⟩
  else if action = "chat" then
    ⟨broadcastChat ls senderID (asString (lookupJ packet "msg")), [], []⟩
  else
    ⟨ls, [], ["unknown action " ++ action ++ " from user " ++ toString senderID]⟩

/-- One inbound WebSocket frame as `readPump` sees it: a non-text frame,
or a text frame whose payload either fails `json.Unmarshal` (`none`) or
parses to a `Packet`.  The frame carries the outcome the external
`database.RemoveUserFromLobby` call would have if this frame dispatches a
`leave_lobby`. -/
inductive InboundFrame where
  | nonText : InboundFrame
  | text : Option Packet → Except String Unit → InboundFrame

/-- Accumulated effect of `readPump`'s for-loop over the frames that
arrive before the terminating read error. -/
structure LoopResult where
  ls : LobbyState
  cancelled : List Nat
  log : List String
deriving Repr, DecidableEq

/-- Shallow embedding of `readPump`'s loop body (lobby_ws.go lines
122-139): a read error ends the loop (modelled as the end of the frame
list); a non-text frame is skipped; a text frame that fails JSON parsing
is logged and skipped; a parsed packet is dispatched synchronously. -/
def readLoop (sid hd : Nat) : List InboundFrame → LobbyState → LoopResult
  | [], ls => ⟨ls, [], []⟩
  | InboundFrame.nonText :: rest, ls => readLoop sid hd rest ls
  | InboundFrame.text none _ :: rest, ls =>
      let r := readLoop sid hd rest ls
      ⟨r.ls, r.cancelled, ("invalid json from user " ++ toString sid) :: r.log⟩
  | InboundFrame.text (some p) db :: rest, ls =>
      let d := handleLobbyMessage p ls sid hd db
      let r := readLoop sid hd rest d.ls
      ⟨r.ls, d.cancelled ++ r.cancelled, d.log ++ r.log⟩

/-- Final observable effect of one `readPump` invocation. -/
structure PumpResult where
  ls : LobbyState
  cancelled : List Nat
  teardownRuns : Nat
  transportClosed : Bool
  log : List String
deriving Repr, DecidableEq

/-- Shallow embedding of `readPump` (lobby_ws.go lines 114-140): runs the
read loop until the read error that ends the frame stream, then performs
the deferred teardown exactly at function exit — `ls.RemoveUser(conn.UserID)`,
`conn.Cancel()` and `c.Close(StatusNormalClosure)`. -/
def readPump (frames : List InboundFrame) (ls : LobbyState) (sid hd : Nat) : PumpResult :=
  let r := readLoop sid hd frames ls
  let td := removeUser r.ls sid
  ⟨td.1, r.cancelled ++ td.2 ++ [hd], 1, true, r.log⟩

/-- Replace a `PumpResult`'s log with the same log preceded by one entry. -/
def withLogEntry (s : String) (r : PumpResult) : PumpResult :=
  { r with log := s :: r.log }

/-- WebSocket close status codes used by the handler. -/
inductive CloseStatus where
  | policyViolation : CloseStatus
  | internalError : CloseStatus
  | normalClosure : CloseStatus
deriving Repr, DecidableEq

/-- How a `LobbyWSHandler` invocation ends before (or at) registration. -/
inductive HandlerOutcome where
  | httpBadRequest : String → HandlerOutcome
  | acceptFailed : HandlerOutcome
  | closedEarly : CloseStatus → String → HandlerOutcome
  | registered : LobbyConnection → Option LobbyConnection → HandlerOutcome
deriving Repr, DecidableEq

/-- Shallow embedding of the handler returned by `LobbyWSHandler`
(lobby_ws.go lines 36-110).  External effects are inputs: `pathLobbyID`
is the `uuid.Parse` of the path segment, `acceptOK` whether
`websocket.Accept` succeeded, `subprotocolOK` whether the negotiated
subprotocol is `"lobby"`, `authResult` the outcome of
`auth.AuthenticateJWT` on the `auth_token` cookie, `userIDParse` the
`uuid.Parse` of the returned user-id string, `dbResult` the outcome of
`database.IsUserInLobby`, and `freshHandle` the cancellation handle of
the new `context.WithCancel`.  Returns the outcome together with the
lobby state after the handler's synchronous part. -/
def lobbyWSHandler (pathLobbyID : Option Nat) (acceptOK subprotocolOK : Bool)
    (authResult : Except Unit String) (userIDParse : Option Nat)
    (dbResult : Except Unit Bool) (freshHandle : Nat) (ls : LobbyState) :
    HandlerOutcome × LobbyState :=
  match pathLobbyID with
  | none => (HandlerOutcome.httpBadRequest "invalid lobby_id", ls)
  | some _ =>
    if !acceptOK then (HandlerOutcome.acceptFailed, ls)
    else if !subprotocolOK then
      (HandlerOutcome.closedEarly CloseStatus.policyViolation
        "client must speak the lobby subprotocol", ls)
    else
      match authResult with
      | Except.error _ =>
          (HandlerOutcome.closedEarly CloseStatus.policyViolation "invalid auth_token", ls)
      | Except.ok _ =>
        match userIDParse with
        | none => (HandlerOutcome.closedEarly CloseStatus.policyViolation "invalid user ID", ls)
        | some u =>
          match dbResult with
          | Except.error _ =>
              (HandlerOutcome.closedEarly CloseStatus.internalError "db error", ls)
          | Except.ok false =>
              (HandlerOutcome.closedEarly CloseStatus.policyViolation
                "user not in that lobby", ls)
          | Except.ok true =>
              let conn : LobbyConnection := ⟨u, freshHandle, []⟩
              let evicted := lookupA ls.connections u
              let ls1 := { ls with
                connections := updA ls.connections u conn,
                readyStates := updA ls.readyStates u false }
              let ls2 := broadcastJoin ls1 u
              (HandlerOutcome.registered conn evicted, ls2)

/-- One wakeup of `writePump`'s select: the cancellation signal fires, or
an item is dequeued from `OutChan` (carrying whether the subsequent
transport write succeeds). -/
inductive WriteEvent where
  | cancelSignal : WriteEvent
  | item : LobbyEvent → Bool → WriteEvent
deriving Repr, DecidableEq

/-- How a `writePump` run ends: cancelled (with the events it never
processed), terminated by a transport write failure (likewise), or still
awaiting further events. -/
inductive WriteExit where
  | cancelled : List WriteEvent → WriteExit
  | writeFailed : List WriteEvent → WriteExit
  | awaiting : WriteExit
deriving Repr, DecidableEq

/-- Observable behaviour of one `writePump` run. -/
structure WriteResult where
  written : List String
  ending : WriteExit
deriving Repr, DecidableEq

/-- Model of `json.Marshal` on the outbound event envelopes.  Marshalling
a `map[string]interface{}` built from these envelopes always succeeds, so
serialization is total. -/
def serializeEvent : LobbyEvent → String
  | LobbyEvent.userJoined u => "user_joined:" ++ toString u
  | LobbyEvent.userLeft u => "user_left:" ++ toString u
  | LobbyEvent.readyState u v => "ready_state:" ++ toString u ++ ":" ++ toString v
  | LobbyEvent.chat u m => "chat:" ++ toString u ++ ":" ++ m

/-- Shallow embedding of `writePump` (lobby_ws.go lines 176-194): on the
cancellation signal it returns at once, draining nothing; on a dequeued
item it serializes and writes it to the transport; a write failure
returns from the pump. -/
def writePump : List WriteEvent → WriteResult
  | [] => ⟨[], WriteExit.awaiting⟩
  | WriteEvent.cancelSignal :: rest => ⟨[], WriteExit.cancelled rest⟩
  | WriteEvent.item m true :: rest =>
      let r := writePump rest
      ⟨serializeEvent m :: r.written, r.ending⟩
  | WriteEvent.item _ false :: rest => ⟨[], WriteExit.writeFailed rest⟩

/-- Atomic actions relevant to the lobby's serialization discipline:
acquiring/releasing the per-lobby exclusive lock and writing the three
pieces of state the spec requires the lock to protect. -/
inductive LockAction where
  | lockAcquire : LockAction
  | lockRelease : LockAction
  | writeConnections : LockAction
  | writeReadyStates : LockAction
  | writeCountdown : LockAction
deriving Repr, DecidableEq

/-- Actions performed by the connection-accept path, read off lobby_ws.go
lines 98-99: `ls.Connections[userID] = conn` then
`ls.ReadyStates[userID] = false`.  No lock operation appears anywhere in
the source around these writes. -/
def acceptPathActions : List LockAction :=
  [LockAction.writeConnections, LockAction.writeReadyStates]

/-- Direct mutation performed by `handleLobbyMessage`'s `ready` branch,
read off lobby_ws.go line 147: `ls.ReadyStates[conn.UserID] = true`, with
no lock operation in the source.  (Calls into the missing `internal/lobby`
package may lock internally; this trace covers only the dispatch's own
direct write.) -/
def readyDispatchActions : List LockAction :=
  [LockAction.writeReadyStates]

/-- Projection of one thread's actions out of a two-thread schedule. -/
def projTrace (b : Bool) (t : List (Bool × LockAction)) : List LockAction :=
  (t.filter (fun p => p.1 == b)).map Prod.snd

/-- Whether a two-thread schedule respects mutual exclusion of the lock:
a thread may acquire only when no thread holds the lock, and release only
a lock it holds.  Writes are unconstrained — whether they happen under
the lock is the property being examined, not a side condition. -/
def lockValidFrom : Option Bool → List (Bool × LockAction) → Bool
  | _, [] => true
  | holder, (tid, a) :: rest =>
    match a with
    | LockAction.lockAcquire =>
        match holder with
        | none => lockValidFrom (some tid) rest
        | some _ => false
    | LockAction.lockRelease =>
        match holder with
        | some t => if t == tid then lockValidFrom none rest else false
        | none => false
    | _ => lockValidFrom holder rest

/-- A schedule is lock-valid when it respects the lock from the unlocked
initial state. -/
def lockValid (t : List (Bool × LockAction)) : Bool :=
  lockValidFrom none t

/-- Whether an action mutates lobby state. -/
def isWrite : LockAction → Bool
  | LockAction.writeConnections => true
  | LockAction.writeReadyStates => true
  | LockAction.writeCountdown => true
  | _ => false

/-- The thread tags of a schedule's mutation actions, in order. -/
def writeTags (t : List (Bool × LockAction)) : List Bool :=
  (t.filter (fun p => isWrite p.2)).map Prod.fst

/-- Number of thread alternations in a tag sequence. -/
def switches : List Bool → Nat
  | a :: b :: t => (if a == b then 0 else 1) + switches (b :: t)
  | _ => 0

/-- The schedule's mutations do not interleave: all of one thread's
writes happen before all of the other's (at most one alternation). -/
def serializedWrites (t : List (Bool × LockAction)) : Bool :=
  decide (switches (writeTags t) ≤ 1)

/-- A concrete schedule of two connection-accept paths for the same lobby
running concurrently: their two map writes alternate. -/
def twoAcceptsSchedule : List (Bool × LockAction) :=
  [(true, LockAction.writeConnections), (false, LockAction.writeConnections),
   (true, LockAction.writeReadyStates), (false, LockAction.writeReadyStates)]

/-- A concrete schedule of a connection-accept path interleaved with a
`ready` dispatch for the same lobby. -/
def acceptDispatchSchedule : List (Bool × LockAction) :=
  [(true, LockAction.writeConnections), (false, LockAction.writeReadyStates),
   (true, LockAction.writeReadyStates)]

/-! ## Helper lemmas about the association-list operations and broadcasts -/

theorem lookupA_cons {α : Type} (k : Nat) (v : α) (t : List (Nat × α)) (key : Nat) :
    lookupA ((k, v) :: t) key = if k = key then some v else lookupA t key := rfl

theorem lookupA_updA_self {α : Type} (m : List (Nat × α)) (k : Nat) (v : α) :
    lookupA (updA m k v) k = some v := by
  induction m with
  | nil => simp [updA, lookupA]
  | cons hd t ih =>
    obtain ⟨k1, v1⟩ := hd
    by_cases h : k1 = k
    · subst h
      simp [updA, lookupA]
    · simp [updA, h, lookupA, ih]

theorem lookupA_updA_ne {α : Type} (m : List (Nat × α)) (k k2 : Nat) (v : α)
    (h : k2 ≠ k) : lookupA (updA m k v) k2 = lookupA m k2 := by
  induction m with
  | nil => simp [updA, lookupA, Ne.symm h]
  | cons hd t ih =>
    obtain ⟨k1, v1⟩ := hd
    by_cases hk : k1 = k
    · subst hk
      simp [updA, lookupA, Ne.symm h]
    · simp [updA, hk, lookupA, ih]

theorem lookupA_eraseA_self {α : Type} (m : List (Nat × α)) (k : Nat) :
    lookupA (eraseA m k) k = none := by
  induction m with
  | nil => simp [eraseA, lookupA]
  | cons hd t ih =>
    obtain ⟨k1, v1⟩ := hd
    by_cases h : k1 = k
    · simp [eraseA, h, ih]
    · simp [eraseA, h, lookupA, ih]

theorem broadcastEventExcept_cons_excl (k1 : Nat) (c1 : LobbyConnection)
    (t : List (Nat × LobbyConnection)) (excl : Option Nat) (e : LobbyEvent)
    (hx : some k1 = excl) :
    broadcastEventExcept ((k1, c1) :: t) excl e =
      (k1, c1) :: broadcastEventExcept t excl e := by
  simp [broadcastEventExcept, hx]

theorem broadcastEventExcept_cons_ne (k1 : Nat) (c1 : LobbyConnection)
    (t : List (Nat × LobbyConnection)) (excl : Option Nat) (e : LobbyEvent)
    (hx : ¬ some k1 = excl) :
    broadcastEventExcept ((k1, c1) :: t) excl e =
      (k1, { c1 with queue := enqueueMsg c1.queue e }) :: broadcastEventExcept t excl e := by
  simp [broadcastEventExcept, hx]

theorem lookupA_broadcastEventExcept (conns : List (Nat × LobbyConnection))
    (excl : Option Nat) (e : LobbyEvent) (v : Nat) :
    lookupA (broadcastEventExcept conns excl e) v =
      (lookupA conns v).map (fun c =>
        if some v = excl then c else { c with queue := enqueueMsg c.queue e }) := by
  induction conns with
  | nil => simp [broadcastEventExcept, lookupA]
  | cons hd t ih =>
    obtain ⟨k1, c1⟩ := hd
    by_cases hx : some k1 = excl
    · rw [broadcastEventExcept_cons_excl k1 c1 t excl e hx, lookupA_cons, lookupA_cons]
      by_cases hk : k1 = v
      · subst hk
        simp [hx]
      · simp [hk, ih]
    · rw [broadcastEventExcept_cons_ne k1 c1 t excl e hx, lookupA_cons, lookupA_cons]
      by_cases hk : k1 = v
      · subst hk
        simp [hx]
      · simp [hk, ih]

theorem all_fst_broadcastEventExcept (conns : List (Nat × LobbyConnection))
    (excl : Option Nat) (e : LobbyEvent) (f : Nat → Bool) :
    (broadcastEventExcept conns excl e).all (fun p => f p.1) =
      conns.all (fun p => f p.1) := by
  induction conns with
  | nil => rfl
  | cons hd t ih =>
    obtain ⟨k1, c1⟩ := hd
    by_cases hx : some k1 = excl
    · rw [broadcastEventExcept_cons_excl k1 c1 t excl e hx, List.all_cons, List.all_cons, ih]
    · rw [broadcastEventExcept_cons_ne k1 c1 t excl e hx, List.all_cons, List.all_cons, ih]

theorem areAllReady_broadcastReadyState (ls : LobbyState) (u : Nat) (v : Bool) :
    areAllReady (broadcastReadyState ls u v) = areAllReady ls := by
  simp only [areAllReady, broadcastReadyState]
  exact all_fst_broadcastEventExcept ls.connections none (LobbyEvent.readyState u v)
    (fun k => decide (lookupA ls.readyStates k = some true))

theorem countdown_startCountdown (ls : LobbyState) (secs : Nat) :
    (startCountdown ls secs).countdown = some (ls.countdown.getD secs) := by
  cases h : ls.countdown with
  | none => simp [startCountdown, h]
  | some s => simp [startCountdown, h]

theorem readyStates_startCountdown (ls : LobbyState) (secs : Nat) :
    (startCountdown ls secs).readyStates = ls.readyStates := by
  cases h : ls.countdown <;> simp [startCountdown, h]

theorem connections_startCountdown (ls : LobbyState) (secs : Nat) :
    (startCountdown ls secs).connections = ls.connections := by
  cases h : ls.countdown <;> simp [startCountdown, h]

/-! ## Claim theorems -/

/-- Claim C1: when a connected participant sends a message of type `ready`, the
dispatcher sets that participant's ready flag to true and broadcasts the
ready-state change to every connected participant (drop-on-full queues); and if
the lobby's autoStart flag is set and every connected participant is then ready,
a countdown of 10 seconds is started (an already-running countdown is kept, as
`start_countdown` is a no-op while one runs). -/
theorem ready_sets_flag_broadcasts_and_autostarts_countdown
    (packet : Packet) (ls : LobbyState) (sid hd : Nat) (db : Except String Unit)
    (_hconn : lookupA ls.connections sid ≠ none)
    (htype : asString (lookupJ packet "type") = "ready") :
    lookupA (handleLobbyMessage packet ls sid hd db).ls.readyStates sid = some true
    ∧ (∀ v c, lookupA ls.connections v = some c →
        lookupA (handleLobbyMessage packet ls sid hd db).ls.connections v =
          some { c with queue := enqueueMsg c.queue (LobbyEvent.readyState sid true) })
    ∧ (ls.autoStart = true →
        areAllReady { ls with readyStates := updA ls.readyStates sid true } = true →
        (handleLobbyMessage packet ls sid hd db).ls.countdown = some (ls.countdown.getD 10)) := by
  have heq : handleLobbyMessage packet ls sid hd db =
      ⟨(if (broadcastReadyState { ls with readyStates := updA ls.readyStates sid true } sid true).autoStart
            && areAllReady (broadcastReadyState { ls with readyStates := updA ls.readyStates sid true } sid true)
        then startCountdown (broadcastReadyState { ls with readyStates := updA ls.readyStates sid true } sid true) 10
        else broadcastReadyState { ls with readyStates := updA ls.readyStates sid true } sid true),
        [], []⟩ := by
    simp [handleLobbyMessage, htype]
  refine ⟨?_, ?_, ?_⟩
  · rw [heq]
    dsimp only
    split
    · rw [readyStates_startCountdown]
      simp [broadcastReadyState, lookupA_updA_self]
    · simp [broadcastReadyState, lookupA_updA_self]
  · intro v c hv
    rw [heq]
    dsimp only
    split
    · rw [connections_startCountdown]
      simp [broadcastReadyState, lookupA_broadcastEventExcept, hv]
    · simp [broadcastReadyState, lookupA_broadcastEventExcept, hv]
  · intro hAuto hReady
    rw [heq]
    dsimp only
    have hAuto2 : (broadcastReadyState { ls with readyStates := updA ls.readyStates sid true } sid true).autoStart = true := by
      simpa [broadcastReadyState] using hAuto
    have hReady2 : areAllReady (broadcastReadyState { ls with readyStates := updA ls.readyStates sid true } sid true) = true := by
      rw [areAllReady_broadcastReadyState]
      exact hReady
    rw [hAuto2, hReady2]
    simp only [Bool.and_self, if_true, countdown_startCountdown]
    simp [broadcastReadyState]

/-- Concrete lobby for the C1 witness: users 1 and 2 connected, autoStart on,
user 2 already ready, no countdown running. -/
def c1LS : LobbyState :=
  ⟨77, [(1, ⟨1, 100, []⟩), (2, ⟨2, 200, []⟩)], [(1, false), (2, true)], true, none⟩

/-- Concrete inbound packet for the C1 witness. -/
def c1Packet : Packet := [("type", JValue.jstr "ready")]

/-- Witness for claim C1's theorem at a concrete input: its hypotheses hold and
user 1's `ready` starts the 10-second countdown and sets the flag. -/
theorem ready_sets_flag_broadcasts_and_autostarts_countdown_witness :
    (lookupA c1LS.connections 1 ≠ none)
    ∧ asString (lookupJ c1Packet "type") = "ready"
    ∧ lookupA (handleLobbyMessage c1Packet c1LS 1 100 (Except.ok ())).ls.readyStates 1 = some true
    ∧ (handleLobbyMessage c1Packet c1LS 1 100 (Except.ok ())).ls.countdown = some 10 := by
  have T := ready_sets_flag_broadcasts_and_autostarts_countdown c1Packet c1LS 1 100
    (Except.ok ()) (by decide) (by decide)
  exact ⟨by decide, by decide, T.1, T.2.2 (by decide) (by decide)⟩

/-- Claim C2: when a connected participant sends a message of type `unready`,
the dispatcher sets that participant's ready flag to false, broadcasts the
ready-state change to every connected participant, and cancels any countdown:
whatever the countdown state before (in particular when one is running), the
resulting Lobby State has no running countdown. -/
theorem unready_clears_flag_broadcasts_and_cancels_countdown
    (packet : Packet) (ls : LobbyState) (sid hd : Nat) (db : Except String Unit)
    (_hconn : lookupA ls.connections sid ≠ none)
    (htype : asString (lookupJ packet "type") = "unready") :
    lookupA (handleLobbyMessage packet ls sid hd db).ls.readyStates sid = some false
    ∧ (∀ v c, lookupA ls.connections v = some c →
        lookupA (handleLobbyMessage packet ls sid hd db).ls.connections v =
          some { c with queue := enqueueMsg c.queue (LobbyEvent.readyState sid false) })
    ∧ (handleLobbyMessage packet ls sid hd db).ls.countdown = none := by
  have heq : handleLobbyMessage packet ls sid hd db =
      ⟨cancelCountdown (broadcastReadyState { ls with readyStates := updA ls.readyStates sid false } sid false),
        [], []⟩ := by
    simp [handleLobbyMessage, htype]
  refine ⟨?_, ?_, ?_⟩
  · rw [heq]
    simp [cancelCountdown, broadcastReadyState, lookupA_updA_self]
  · intro v c hv
    rw [heq]
    simp [cancelCountdown, broadcastReadyState, lookupA_broadcastEventExcept, hv]
  · rw [heq]
    simp [cancelCountdown]

/-- Concrete lobby for the C2 witness: users 1 and 2 connected, both ready, a
countdown running. -/
def c2LS : LobbyState :=
  ⟨78, [(1, ⟨1, 100, []⟩), (2, ⟨2, 200, []⟩)], [(1, true), (2, true)], true, some 10⟩

/-- Concrete inbound packet for the C2 witness. -/
def c2Packet : Packet := [("type", JValue.jstr "unready")]

/-- Witness for claim C2's theorem at a concrete input: a running countdown is
cancelled by `unready` and the sender's flag is cleared. -/
theorem unready_clears_flag_broadcasts_and_cancels_countdown_witness :
    (lookupA c2LS.connections 1 ≠ none)
    ∧ asString (lookupJ c2Packet "type") = "unready"
    ∧ lookupA (handleLobbyMessage c2Packet c2LS 1 100 (Except.ok ())).ls.readyStates 1 = some false
    ∧ (handleLobbyMessage c2Packet c2LS 1 100 (Except.ok ())).ls.countdown = none := by
  have T := unready_clears_flag_broadcasts_and_cancels_countdown c2Packet c2LS 1 100
    (Except.ok ()) (by decide) (by decide)
  exact ⟨by decide, by decide, T.1, T.2.2⟩

/-- Claim C3: the read task exits only when a read failure (including transport
close) ends the frame stream, and on exit it unregisters the participant from
its Lobby State, cancels the connection's cancellation handle, and closes the
transport; this teardown path runs exactly once per `readPump` invocation,
whatever frames arrived before the error. -/
theorem read_error_teardown_runs_exactly_once
    (frames : List InboundFrame) (ls : LobbyState) (sid hd : Nat) :
    (readPump frames ls sid hd).teardownRuns = 1
    ∧ lookupA (readPump frames ls sid hd).ls.connections sid = none
    ∧ hd ∈ (readPump frames ls sid hd).cancelled
    ∧ (readPump frames ls sid hd).transportClosed = true := by
  refine ⟨rfl, ?_, ?_, rfl⟩
  · simp [readPump, removeUser, broadcastLeave, lookupA_broadcastEventExcept,
      lookupA_eraseA_self]
  · simp [readPump]

/-- Claim C4: a non-text frame is skipped, a text payload that fails JSON
parsing is logged and skipped, and a parsed message with an unrecognized type
is logged and ignored; in none of these cases does the read loop terminate the
connection — processing continues with the remaining frames exactly as if the
offending frame had not arrived, apart from the log entry. -/
theorem malformed_frames_are_skipped_not_fatal
    (rest : List InboundFrame) (ls : LobbyState) (sid hd : Nat)
    (db : Except String Unit) (p : Packet) :
    readPump (InboundFrame.nonText :: rest) ls sid hd = readPump rest ls sid hd
    ∧ readPump (InboundFrame.text none db :: rest) ls sid hd =
        withLogEntry ("invalid json from user " ++ toString sid) (readPump rest ls sid hd)
    ∧ (asString (lookupJ p "type") ≠ "ready" →
       asString (lookupJ p "type") ≠ "unready" →
       asString (lookupJ p "type") ≠ "leave_lobby" →
       asString (lookupJ p "type") ≠ "chat" →
       readPump (InboundFrame.text (some p) db :: rest) ls sid hd =
         withLogEntry
           ("unknown action " ++ asString (lookupJ p "type") ++ " from user " ++ toString sid)
           (readPump rest ls sid hd)) := by
  refine ⟨rfl, ?_, ?_⟩
  · simp [readPump, readLoop, withLogEntry]
  · intro h1 h2 h3 h4
    have heq : handleLobbyMessage p ls sid hd db =
        ⟨ls, [], ["unknown action " ++ asString (lookupJ p "type") ++ " from user " ++ toString sid]⟩ := by
      simp [handleLobbyMessage, h1, h2, h3, h4]
    simp [readPump, readLoop, heq, withLogEntry]

/-- Concrete lobby for the C4 witness. -/
def c4LS : LobbyState := ⟨79, [(1, ⟨1, 100, []⟩)], [(1, false)], false, none⟩

/-- Concrete inbound packet with an unrecognized type for the C4 witness. -/
def c4Packet : Packet := [("type", JValue.jstr "poke")]

/-- Witness for claim C4's theorem at a concrete input: an unknown-type packet
only adds a log entry and the loop goes on to the teardown shared with the
empty stream. -/
theorem malformed_frames_are_skipped_not_fatal_witness :
    (asString (lookupJ c4Packet "type") ≠ "ready")
    ∧ (asString (lookupJ c4Packet "type") ≠ "unready")
    ∧ (asString (lookupJ c4Packet "type") ≠ "leave_lobby")
    ∧ (asString (lookupJ c4Packet "type") ≠ "chat")
    ∧ readPump [InboundFrame.text (some c4Packet) (Except.ok ())] c4LS 1 100 =
        withLogEntry
          ("unknown action " ++ asString (lookupJ c4Packet "type") ++ " from user " ++ toString 1)
          (readPump [] c4LS 1 100) :=
  ⟨by decide, by decide, by decide, by decide,
    (malformed_frames_are_skipped_not_fatal [] c4LS 1 100 (Except.ok ()) c4Packet).2.2
      (by decide) (by decide) (by decide) (by decide)⟩

/-- Claim C8: a `leave_lobby` message invokes the external persisted-membership
removal; whatever that call returns, the "user left" broadcast to the other
participants and the cancellation of this connection still happen, and a
database error is logged (and only logged — processing continues). -/
theorem leave_lobby_db_error_logged_and_leave_proceeds
    (packet : Packet) (ls : LobbyState) (sid hd : Nat) (db : Except String Unit)
    (htype : asString (lookupJ packet "type") = "leave_lobby") :
    (handleLobbyMessage packet ls sid hd db).cancelled = [hd]
    ∧ (∀ v c, v ≠ sid → lookupA ls.connections v = some c →
        lookupA (handleLobbyMessage packet ls sid hd db).ls.connections v =
          some { c with queue := enqueueMsg c.queue (LobbyEvent.userLeft sid) })
    ∧ (∀ e, db = Except.error e →
        (handleLobbyMessage packet ls sid hd db).log =
          ["failed to remove user " ++ toString sid ++ " from DB: " ++ e]) := by
  refine ⟨?_, ?_, ?_⟩
  · simp [handleLobbyMessage, htype]
  · intro v c hne hv
    simp [handleLobbyMessage, htype, broadcastLeave, lookupA_broadcastEventExcept, hv, hne]
  · intro e hdb
    subst hdb
    simp [handleLobbyMessage, htype]

/-- Concrete lobby for the C8 witness. -/
def c8LS : LobbyState :=
  ⟨80, [(1, ⟨1, 100, []⟩), (2, ⟨2, 200, []⟩)], [(1, false), (2, false)], false, none⟩

/-- Concrete inbound packet for the C8 witness. -/
def c8Packet : Packet := [("type", JValue.jstr "leave_lobby")]

/-- Witness for claim C8's theorem at a concrete input: with a failing DB
removal, the failure is logged, the leave broadcast reaches user 2, and the
sender's connection is cancelled. -/
theorem leave_lobby_db_error_logged_and_leave_proceeds_witness :
    asString (lookupJ c8Packet "type") = "leave_lobby"
    ∧ (handleLobbyMessage c8Packet c8LS 1 100 (Except.error "boom")).cancelled = [100]
    ∧ (handleLobbyMessage c8Packet c8LS 1 100 (Except.error "boom")).log =
        ["failed to remove user " ++ toString 1 ++ " from DB: " ++ "boom"]
    ∧ lookupA (handleLobbyMessage c8Packet c8LS 1 100 (Except.error "boom")).ls.connections 2 =
        some ⟨2, 200, enqueueMsg [] (LobbyEvent.userLeft 1)⟩ :=
  have T := leave_lobby_db_error_logged_and_leave_proceeds c8Packet c8LS 1 100
    (Except.error "boom") (by decide)
  ⟨by decide, T.1, T.2.2 "boom" rfl, T.2.1 2 ⟨2, 200, []⟩ (by decide) (by decide)⟩

/-- An option holds no JSON string value: either absent or a non-string. -/
theorem asString_of_no_str (o : Option JValue)
    (h : Option.all (fun v => !(isStr v)) o = true) : asString o = "" := by
  cases o with
  | none => rfl
  | some v => cases v <;> simp_all [Option.all, isStr, asString]

/-- Claim C10: a `chat` message whose `msg` field is absent or not a string is
neither rejected nor ignored: the dispatcher broadcasts a chat event attributed
to the sender whose content is the empty string (Go's failed comma-ok string
assertion yields `""`), logging nothing, cancelling nothing, and leaving ready
flags and countdown untouched. -/
theorem chat_without_string_msg_broadcasts_empty_content
    (packet : Packet) (ls : LobbyState) (sid hd : Nat) (db : Except String Unit)
    (htype : asString (lookupJ packet "type") = "chat")
    (hmsg : Option.all (fun v => !(isStr v)) (lookupJ packet "msg") = true) :
    (∀ v c, v ≠ sid → lookupA ls.connections v = some c →
        lookupA (handleLobbyMessage packet ls sid hd db).ls.connections v =
          some { c with queue := enqueueMsg c.queue (LobbyEvent.chat sid "") })
    ∧ (handleLobbyMessage packet ls sid hd db).log = []
    ∧ (handleLobbyMessage packet ls sid hd db).cancelled = []
    ∧ (handleLobbyMessage packet ls sid hd db).ls.readyStates = ls.readyStates
    ∧ (handleLobbyMessage packet ls sid hd db).ls.countdown = ls.countdown := by
  have hempty : asString (lookupJ packet "msg") = "" := asString_of_no_str _ hmsg
  refine ⟨?_, ?_, ?_, ?_, ?_⟩
  · intro v c hne hv
    simp [handleLobbyMessage, htype, hempty, broadcastChat, lookupA_broadcastEventExcept,
      hv, hne]
  · simp [handleLobbyMessage, htype]
  · simp [handleLobbyMessage, htype]
  · simp [handleLobbyMessage, htype, broadcastChat]
  · simp [handleLobbyMessage, htype, broadcastChat]

/-- Concrete lobby for the C10 witness. -/
def c10LS : LobbyState :=
  ⟨81, [(1, ⟨1, 100, []⟩), (2, ⟨2, 200, []⟩)], [(1, false), (2, false)], false, none⟩

/-- Concrete `chat` packet whose `msg` field is a number, not a string. -/
def c10Packet : Packet := [("type", JValue.jstr "chat"), ("msg", JValue.jnum 5)]

/-- Witness for claim C10's theorem at a concrete input: a numeric `msg` yields
a broadcast chat event with empty content delivered to user 2. -/
theorem chat_without_string_msg_broadcasts_empty_content_witness :
    asString (lookupJ c10Packet "type") = "chat"
    ∧ Option.all (fun v => !(isStr v)) (lookupJ c10Packet "msg") = true
    ∧ lookupA (handleLobbyMessage c10Packet c10LS 1 100 (Except.ok ())).ls.connections 2 =
        some ⟨2, 200, enqueueMsg [] (LobbyEvent.chat 1 "")⟩
    ∧ (handleLobbyMessage c10Packet c10LS 1 100 (Except.ok ())).log = [] :=
  have T := chat_without_string_msg_broadcasts_empty_content c10Packet c10LS 1 100
    (Except.ok ()) (by decide) (by decide)
  ⟨by decide, by decide, T.1 2 ⟨2, 200, []⟩ (by decide) (by decide), T.2.1⟩

/-- Claim C6: with the path, accept and subprotocol stages passed, a failed
token verification closes the connection with a policy-violation status, a
database error from the membership check closes it with an internal-error
status, and a false membership result closes it with a policy-violation status;
in all three cases the lobby state is left untouched — the user is never
registered. -/
theorem failed_auth_or_membership_closes_without_registering
    (lid : Nat) (uidStr : String) (u fh : Nat) (ls : LobbyState)
    (userIDParse : Option Nat) (dbResult : Except Unit Bool) :
    lobbyWSHandler (some lid) true true (Except.error ()) userIDParse dbResult fh ls =
      (HandlerOutcome.closedEarly CloseStatus.policyViolation "invalid auth_token", ls)
    ∧ lobbyWSHandler (some lid) true true (Except.ok uidStr) (some u) (Except.error ()) fh ls =
      (HandlerOutcome.closedEarly CloseStatus.internalError "db error", ls)
    ∧ lobbyWSHandler (some lid) true true (Except.ok uidStr) (some u) (Except.ok false) fh ls =
      (HandlerOutcome.closedEarly CloseStatus.policyViolation "user not in that lobby", ls) :=
  ⟨rfl, rfl, rfl⟩

/-- Claim C7: a fully authorized connection is registered: the new connection
is inserted into the connection map (overwriting — and returning untouched,
in particular neither cancelled nor closed — any prior connection for the same
user), the user's ready flag is initialized to false, and a "user joined"
event is enqueued to every other current participant but not to the joiner,
whose fresh queue stays empty. -/
theorem register_inserts_initializes_and_broadcasts_join
    (lid : Nat) (uidStr : String) (u fh : Nat) (ls : LobbyState) :
    (lobbyWSHandler (some lid) true true (Except.ok uidStr) (some u) (Except.ok true) fh ls).1 =
      HandlerOutcome.registered ⟨u, fh, []⟩ (lookupA ls.connections u)
    ∧ lookupA (lobbyWSHandler (some lid) true true (Except.ok uidStr) (some u) (Except.ok true) fh ls).2.connections u =
        some ⟨u, fh, []⟩
    ∧ lookupA (lobbyWSHandler (some lid) true true (Except.ok uidStr) (some u) (Except.ok true) fh ls).2.readyStates u =
        some false
    ∧ (∀ v c, v ≠ u → lookupA ls.connections v = some c →
        lookupA (lobbyWSHandler (some lid) true true (Except.ok uidStr) (some u) (Except.ok true) fh ls).2.connections v =
          some { c with queue := enqueueMsg c.queue (LobbyEvent.userJoined u) }) := by
  refine ⟨rfl, ?_, ?_, ?_⟩
  · simp [lobbyWSHandler, broadcastJoin, lookupA_broadcastEventExcept, lookupA_updA_self]
  · simp [lobbyWSHandler, broadcastJoin, lookupA_updA_self]
  · intro v c hne hv
    simp [lobbyWSHandler, broadcastJoin, lookupA_broadcastEventExcept,
      lookupA_updA_ne _ _ _ _ hne, hv, hne]

/-- Concrete lobby for the C7 witness: user 2 is already connected; user 1
joins (and is already present with an older connection, which must come back
evicted and untouched). -/
def c7LS : LobbyState :=
  ⟨82, [(1, ⟨1, 50, [LobbyEvent.chat 2 "hi"]⟩), (2, ⟨2, 200, []⟩)], [(1, true), (2, false)],
    false, none⟩

/-- Witness for claim C7's theorem at a concrete input: registration of user 1
returns the prior connection unchanged, resets the ready flag, and enqueues the
join event to user 2 only. -/
theorem register_inserts_initializes_and_broadcasts_join_witness :
    (lobbyWSHandler (some 82) true true (Except.ok "u1") (some 1) (Except.ok true) 100 c7LS).1 =
      HandlerOutcome.registered ⟨1, 100, []⟩ (some ⟨1, 50, [LobbyEvent.chat 2 "hi"]⟩)
    ∧ lookupA (lobbyWSHandler (some 82) true true (Except.ok "u1") (some 1) (Except.ok true) 100 c7LS).2.readyStates 1 =
        some false
    ∧ lookupA (lobbyWSHandler (some 82) true true (Except.ok "u1") (some 1) (Except.ok true) 100 c7LS).2.connections 2 =
        some ⟨2, 200, enqueueMsg [] (LobbyEvent.userJoined 1)⟩ :=
  have T := register_inserts_initializes_and_broadcasts_join 82 "u1" 1 100 c7LS
  ⟨T.1, T.2.2.1, T.2.2.2 2 ⟨2, 200, []⟩ (by decide) (by decide)⟩

/-- Claim C9: the write task exits immediately on the cancellation signal,
writing none of the still-queued items (no draining); every item dequeued
before that is serialized and written in order; and a transport write failure
terminates the task at that point, likewise leaving the remaining items
unprocessed. -/
theorem write_pump_cancel_exits_undrained_and_write_failure_terminates
    (ms : List LobbyEvent) (rest : List WriteEvent) (m : LobbyEvent) :
    writePump (ms.map (fun x => WriteEvent.item x true) ++ WriteEvent.cancelSignal :: rest) =
      ⟨ms.map serializeEvent, WriteExit.cancelled rest⟩
    ∧ writePump (ms.map (fun x => WriteEvent.item x true) ++ WriteEvent.item m false :: rest) =
      ⟨ms.map serializeEvent, WriteExit.writeFailed rest⟩ := by
  induction ms with
  | nil => exact ⟨rfl, rfl⟩
  | cons a t ih =>
    refine ⟨?_, ?_⟩ <;> simp [writePump, ih.1, ih.2]

/-- Claim C5 is refuted by the source: the connection-accept path
(lobby_ws.go lines 98-99) and the dispatch's direct ready-flag write (line 147)
perform their map mutations with no lock operation, so lock-valid schedules
exist in which the map writes of two accept paths — and of an accept path and
a ready dispatch — for the same lobby interleave. -/
theorem lobby_map_writes_not_serialized_by_lock :
    projTrace true twoAcceptsSchedule = acceptPathActions
    ∧ projTrace false twoAcceptsSchedule = acceptPathActions
    ∧ lockValid twoAcceptsSchedule = true
    ∧ serializedWrites twoAcceptsSchedule = false
    ∧ projTrace true acceptDispatchSchedule = acceptPathActions
    ∧ projTrace false acceptDispatchSchedule = readyDispatchActions
    ∧ lockValid acceptDispatchSchedule = true
    ∧ serializedWrites acceptDispatchSchedule = false := by
  decide
